import Mathlib

/-!
Verification of the `target_build_utils` crate (src/lib.rs): resolution of a
compile-target identifier into a structured `TargetInfo`, via a built-in triple
table, a direct file path, or a search over `RUST_TARGET_PATH` directories.

The host environment and filesystem are modelled as explicit state:
`EnvState` holds the two environment variables the crate reads, and `FsState`
gives, for every path, whether it is a regular file and what opening plus
parsing it as JSON would yield.
-/

namespace TargetBuildUtils

/-- The resolved target description (struct `TargetInfo` in src/lib.rs). -/
structure TargetInfo where
  arch : String
  vendor : String
  os : String
  env : String
  endian : String
  pointer_width : String
deriving DecidableEq, Repr

/-- An opaque identifier standing for a `std::io::Error` value. -/
structure IoErr where
  code : Nat
deriving DecidableEq, Repr

/-- The error enum of src/lib.rs (`Error`): `TargetUnset`, `TargetNotFound`,
`InvalidSpec`, `Io(std::io::Error)`. -/
inductive Error where
  | TargetUnset
  | TargetNotFound
  | InvalidSpec
  | Io (e : IoErr)
deriving DecidableEq, Repr

/-- A serde_json `Value`: the generic document model the loader inspects. -/
inductive JValue where
  | null
  | bool (b : Bool)
  | num (n : Int)
  | str (s : String)
  | arr (xs : List JValue)
  | obj (fields : List (String × JValue))

/-- `serde_json::Value::find`: on an object, look the key up; on any other
value, return `None`. -/
def JValue.find : JValue → String → Option JValue
  | .obj fields, name => fields.lookup name
  | _, _ => none

/-- `serde_json::Value::as_str`: `Some` exactly on string values. -/
def JValue.as_str : JValue → Option String
  | .str s => some s
  | _ => none

/-- The joint outcome of `File::open(path)` followed by
`serde_json::from_reader`: the open can fail with an I/O error, the parser can
fail with an I/O-classified error (`serde_json::Error::Io`) or any other parse
error, or a document is produced. -/
inductive ReadOutcome where
  | openErr (e : IoErr)
  | parseIoErr (e : IoErr)
  | parseOtherErr
  | parsed (v : JValue)

/-- Filesystem state: for each path (a string), whether `Path::is_file` holds,
and what opening and parsing the path as JSON yields. Both are read-only
queries; the crate never writes. -/
structure FsState where
  is_file : String → Bool
  readFile : String → ReadOutcome

/-- Environment state. `target` models `env::var("TARGET")`: `none` is an
unset variable, `some none` a set but non-UTF-8 value, `some (some s)` a valid
value. `rust_target_path` models `env::var_os("RUST_TARGET_PATH")` with the
OS-string abstracted to a `String`. -/
structure EnvState where
  target : Option (Option String)
  rust_target_path : Option String

/-- Splitting a character list at every colon, as Rust's `slice::split` does:
the empty list yields one empty group, and each separator opens a new group. -/
def split_colon (cs : List Char) : List (List Char) :=
  match cs with
  | [] => [[]]
  | c :: rest =>
    if c = ':' then [] :: split_colon rest
    else
      match split_colon rest with
      | [] => [[c]]
      | g :: gs => (c :: g) :: gs

/-- `std::env::split_paths` on POSIX: split on every colon. Splitting the
empty string yields the single entry `[""]`, as Rust's slice `split` does. -/
def split_paths (s : String) : List String :=
  (split_colon s.data).map (fun cs => String.mk cs)

/-- `Path::join` on POSIX: an absolute right operand replaces the left;
joining onto the empty path yields the right operand; otherwise a separator is
inserted unless already present. -/
def path_join (dir p : String) : String :=
  if p.data.head? = some '/' then p
  else if dir = "" then p
  else if dir.data.getLast? = some '/' then dir ++ p
  else dir ++ "/" ++ p

/-- Helper `ti` inside `TargetInfo::load_specific`. -/
def ti (a v s b e w : String) : Option TargetInfo :=
  some { arch := a, vendor := v, os := s, env := b, endian := e, pointer_width := w }

/-- `TargetInfo::load_specific`: the built-in triple table, translated arm by
arm from the `match` in src/lib.rs. -/
def load_specific (s : String) : Option TargetInfo :=
  match s with
  | "x86_64-unknown-linux-gnu" => ti "x86_64" "unknown" "linux" "gnu" "little" "64"
  | "i686-unknown-linux-gnu"
  | "i586-unknown-linux-gnu" => ti "x86" "unknown" "linux" "gnu" "little" "32"
  | "mips-unknown-linux-gnu" => ti "mips" "unknown" "linux" "gnu" "big" "32"
  | "mipsel-unknown-linux-gnu" => ti "mips" "unknown" "linux" "gnu" "little" "32"
  | "powerpc-unknown-linux-gnu" => ti "powerpc" "unknown" "linux" "gnu" "big" "32"
  | "powerpc64-unknown-linux-gnu" => ti "powerpc64" "unknown" "linux" "gnu" "big" "64"
  | "powerpc64le-unknown-linux-gnu" => ti "powerpc64" "unknown" "linux" "gnu" "little" "64"
  | "arm-unknown-linux-gnueabi"
  | "arm-unknown-linux-gnueabihf"
  | "armv7-unknown-linux-gnueabihf" => ti "arm" "unknown" "linux" "gnu" "little" "32"
  | "aarch64-unknown-linux-gnu" => ti "aarch64" "unknown" "linux" "gnu" "little" "64"
  | "x86_64-unknown-linux-musl" => ti "x86_64" "unknown" "linux" "musl" "little" "64"
  | "i686-unknown-linux-musl" => ti "x86" "unknown" "linux" "musl" "little" "32"
  | "mips-unknown-linux-musl" => ti "mips" "unknown" "linux" "musl" "big" "32"
  | "mipsel-unknown-linux-musl" => ti "mips" "unknown" "linux" "musl" "little" "32"
  | "i686-linux-android" => ti "x86" "unknown" "android" "" "little" "32"
  | "arm-linux-androideabi"
  | "armv7-linux-androideabi" => ti "arm" "unknown" "android" "" "little" "32"
  | "aarch64-linux-android" => ti "aarch64" "unknown" "android" "" "little" "64"
  | "i686-unknown-freebsd" => ti "x86" "unknown" "freebsd" "" "little" "32"
  | "x86_64-unknown-freebsd" => ti "x86_64" "unknown" "freebsd" "" "little" "64"
  | "i686-unknown-dragonfly" => ti "x86" "unknown" "dragonfly" "" "little" "32"
  | "x86_64-unknown-dragonfly" => ti "x86_64" "unknown" "dragonfly" "" "little" "64"
  | "x86_64-unknown-bitrig" => ti "x86_64" "unknown" "bitrig" "" "little" "64"
  | "x86_64-unknown-openbsd" => ti "x86_64" "unknown" "openbsd" "" "little" "64"
  | "x86_64-unknown-netbsd" => ti "x86_64" "unknown" "netbsd" "" "little" "64"
  | "x86_64-rumprun-netbsd" => ti "x86_64" "rumprun" "netbsd" "" "little" "64"
  | "x86_64-apple-darwin" => ti "x86_64" "apple" "macos" "" "little" "64"
  | "i686-apple-darwin" => ti "x86" "apple" "macos" "" "little" "32"
  | "i386-apple-ios" => ti "x86" "apple" "ios" "" "little" "32"
  | "x86_64-apple-ios" => ti "x86_64" "apple" "ios" "" "little" "64"
  | "aarch64-apple-ios" => ti "aarch64" "apple" "ios" "" "little" "64"
  | "armv7s-apple-ios"
  | "armv7-apple-ios" => ti "arm" "apple" "ios" "" "little" "32"
  | "x86_64-sun-solaris" => ti "x86_64" "sun" "solaris" "" "little" "64"
  | "x86_64-pc-windows-gnu" => ti "x86_64" "pc" "windows" "gnu" "little" "64"
  | "i686-pc-windows-gnu" => ti "x86" "pc" "windows" "gnu" "little" "32"
  | "x86_64-pc-windows-msvc" => ti "x86_64" "pc" "windows" "msvc" "little" "64"
  | "i586-pc-windows-msvc"
  | "i686-pc-windows-msvc" => ti "x86" "pc" "windows" "msvc" "little" "32"
  | "le32-unknown-nacl" => ti "le32" "unknown" "nacl" "newlib" "little" "32"
  | "asmjs-unknown-emscripten" => ti "asmjs" "unknown" "emscripten" "" "little" "32"
  | _ => none

/-- The `req` closure of `load_json`: `json.find(name).and_then(|a| a.as_str())
.ok_or(Error::InvalidSpec)`. -/
def req (json : JValue) (name : String) : Except Error String :=
  match (json.find name).bind JValue.as_str with
  | some s => .ok s
  | none => .error .InvalidSpec

/-- The local `load_json` of `TargetInfo::from_str`: open and parse the file,
mapping an open failure and a parser-reported I/O fault to `Error::Io` and any
other parse failure to `InvalidSpec`; then extract the fields, the four
required ones through `req` and the two optional ones with defaults. -/
def load_json (fs : FsState) (path : String) : Except Error TargetInfo :=
  match fs.readFile path with
  | .openErr e => .error (.Io e)
  | .parseIoErr e => .error (.Io e)
  | .parseOtherErr => .error .InvalidSpec
  | .parsed json =>
    match req json "arch" with
    | .error e => .error e
    | .ok arch =>
      match req json "os" with
      | .error e => .error e
      | .ok os =>
        match req json "target-endian" with
        | .error e => .error e
        | .ok endian =>
          match req json "target-pointer-width" with
          | .error e => .error e
          | .ok pointer_width =>
            .ok { arch := arch,
                  vendor := ((json.find "vendor").bind JValue.as_str).getD "unknown",
                  os := os,
                  env := ((json.find "env").bind JValue.as_str).getD "",
                  endian := endian,
                  pointer_width := pointer_width }

/-- The search loop of `TargetInfo::from_str`: for each directory of the split
search path in order, join the candidate filename and, on the first hit that
is a regular file, delegate to `load_json`; otherwise `TargetNotFound`. -/
def search_dirs (fs : FsState) (dirs : List String) (cand : String) :
    Except Error TargetInfo :=
  match dirs with
  | [] => .error .TargetNotFound
  | dir :: rest =>
    let p := path_join dir cand
    if fs.is_file p then load_json fs p else search_dirs fs rest cand

/-- `TargetInfo::from_str`: built-in table first; then the input as a direct
file path; then the `.json` candidate searched through `RUST_TARGET_PATH`
(unset read as the empty string). -/
def from_str (env : EnvState) (fs : FsState) (s : String) :
    Except Error TargetInfo :=
  match load_specific s with
  | some t => .ok t
  | none =>
    if fs.is_file s then
      load_json fs s
    else
      let cand := s ++ ".json"
      let target_path := env.rust_target_path.getD ""
      search_dirs fs (split_paths target_path) cand

/-- `TargetInfo::new`: read `TARGET`, mapping an unset or non-UTF-8 variable
to `TargetUnset`, and delegate to `from_str`. -/
def new (env : EnvState) (fs : FsState) : Except Error TargetInfo :=
  match env.target with
  | some (some s) => from_str env fs s
  | _ => .error .TargetUnset

end TargetBuildUtils

deriving instance DecidableEq for Except

namespace TargetBuildUtils

/-! ## Concrete states used to instantiate the theorems -/

/-- A well-formed custom specification document (the crate's own test fixture
`my-great-target.json`). -/
def doc42 : JValue := .obj [("arch", .str "x86_64"), ("os", .str "nux"),
  ("target-endian", .str "little"), ("target-pointer-width", .str "42")]

/-- The target described by `doc42`. -/
def t42 : TargetInfo :=
  { arch := "x86_64", vendor := "unknown", os := "nux", env := "",
    endian := "little", pointer_width := "42" }

/-- An adversarial filesystem: every path is a regular file and parses to
`doc42`. Built-in resolution must ignore it. -/
def fsAll : FsState := { is_file := fun _ => true, readFile := fun _ => .parsed doc42 }

/-- A filesystem whose only regular file is `foo.json`, holding `doc42`. -/
def fsFooJson : FsState :=
  { is_file := fun p => p == "foo.json", readFile := fun _ => .parsed doc42 }

/-- A filesystem whose only regular file is `/b/mytarget.json`, holding
`doc42`. -/
def fsUnderB : FsState :=
  { is_file := fun p => p == "/b/mytarget.json", readFile := fun _ => .parsed doc42 }

/-- A filesystem with no regular files at all. -/
def fsNone : FsState := { is_file := fun _ => false, readFile := fun _ => .parseOtherErr }

/-- Environment: `TARGET` unset, `RUST_TARGET_PATH` set to the empty string. -/
def envEmptyPath : EnvState := { target := none, rust_target_path := some "" }

/-- Environment: both variables unset. -/
def envUnset : EnvState := { target := none, rust_target_path := none }

/-- Environment: `RUST_TARGET_PATH` set to the two-directory list `/a:/b`. -/
def envAB : EnvState := { target := none, rust_target_path := some "/a:/b" }

/-! ## Helper lemmas -/

/-- `req` only ever fails with `InvalidSpec`. -/
theorem req_error_eq (j : JValue) (n : String) (e : Error) (h : req j n = .error e) :
    e = Error.InvalidSpec := by
  unfold req at h
  cases hf : (j.find n).bind JValue.as_str <;> rw [hf] at h <;> simp_all

/-- `req` succeeds exactly on present string-valued fields. -/
theorem req_ok_iff (j : JValue) (n : String) (s : String) :
    req j n = .ok s ↔ (j.find n).bind JValue.as_str = some s := by
  unfold req
  cases hf : (j.find n).bind JValue.as_str <;> simp

/-- `req` fails exactly on missing or non-string fields. -/
theorem req_invalid_iff (j : JValue) (n : String) :
    req j n = .error .InvalidSpec ↔ (j.find n).bind JValue.as_str = none := by
  unfold req
  cases hf : (j.find n).bind JValue.as_str <;> simp

/-- A built-in table hit short-circuits `from_str`. -/
theorem from_str_builtin (env : EnvState) (fs : FsState) (s : String)
    (t : TargetInfo) (h : load_specific s = some t) : from_str env fs s = .ok t := by
  unfold from_str
  rw [h]

/-- On a table miss, `from_str` is the direct-path check followed by the
search loop. -/
theorem from_str_fallback (env : EnvState) (fs : FsState) (s : String)
    (h : load_specific s = none) :
    from_str env fs s =
      if fs.is_file s then load_json fs s
      else search_dirs fs (split_paths (env.rust_target_path.getD "")) (s ++ ".json") := by
  unfold from_str
  rw [h]

/-- If no directory of the list yields an existing candidate, the search loop
fails with `TargetNotFound`. -/
theorem search_dirs_not_found (fs : FsState) (cand : String) :
    ∀ dirs : List String, (∀ d ∈ dirs, fs.is_file (path_join d cand) = false) →
      search_dirs fs dirs cand = .error .TargetNotFound := by
  intro dirs
  induction dirs with
  | nil => intro _; rfl
  | cons d rest ih =>
    intro h
    have hd : fs.is_file (path_join d cand) = false := h d (List.mem_cons_self d rest)
    simp only [search_dirs, hd, Bool.false_eq_true, if_false]
    exact ih fun d' hd' => h d' (List.mem_cons_of_mem d hd')

/-- The first directory whose joined candidate is a regular file decides the
search loop. -/
theorem search_dirs_first_hit (fs : FsState) (cand : String) :
    ∀ pre : List String, ∀ d post, (∀ d' ∈ pre, fs.is_file (path_join d' cand) = false) →
      fs.is_file (path_join d cand) = true →
      search_dirs fs (pre ++ d :: post) cand = load_json fs (path_join d cand) := by
  intro pre
  induction pre with
  | nil =>
    intro d post _ hd
    simp [search_dirs, hd]
  | cons a rest ih =>
    intro d post hpre hd
    have ha : fs.is_file (path_join a cand) = false := hpre a (List.mem_cons_self a rest)
    simp only [List.cons_append, search_dirs, ha, Bool.false_eq_true, if_false]
    exact ih d post (fun d' hd' => hpre d' (List.mem_cons_of_mem a hd')) hd

/-- The search loop either delegates to `load_json` at some path or fails with
`TargetNotFound`. -/
theorem search_dirs_cases (fs : FsState) (dirs : List String) (cand : String) :
    (∃ p, search_dirs fs dirs cand = load_json fs p) ∨
      search_dirs fs dirs cand = .error .TargetNotFound := by
  induction dirs with
  | nil => right; rfl
  | cons d rest ih =>
    by_cases hd : fs.is_file (path_join d cand) = true
    · left
      exact ⟨path_join d cand, by simp [search_dirs, hd]⟩
    · have hd' : fs.is_file (path_join d cand) = false := by simpa using hd
      simpa [search_dirs, hd', Bool.false_eq_true, if_false] using ih

/-- `load_json` yields a target, `InvalidSpec`, or an I/O error — never the
other two error kinds. -/
theorem load_json_cases (fs : FsState) (path : String) :
    (∃ t, load_json fs path = .ok t) ∨ load_json fs path = .error .InvalidSpec ∨
      ∃ e, load_json fs path = .error (.Io e) := by
  unfold load_json
  repeat' split
  all_goals first
    | exact .inl ⟨_, rfl⟩
    | exact .inr (.inr ⟨_, rfl⟩)
    | exact .inr (.inl rfl)
    | (rename_i e h; cases req_error_eq _ _ e h; exact .inr (.inl rfl))

/-- `from_str` never fails with `TargetUnset`. -/
theorem from_str_ne_target_unset (env : EnvState) (fs : FsState) (s : String) :
    from_str env fs s ≠ .error .TargetUnset := by
  cases hb : load_specific s with
  | some t => rw [from_str_builtin env fs s t hb]; simp
  | none =>
    rw [from_str_fallback env fs s hb]
    split
    · rcases load_json_cases fs s with ⟨t, h⟩ | h | ⟨e, h⟩ <;> simp [h]
    · rcases search_dirs_cases fs (split_paths (env.rust_target_path.getD ""))
        (s ++ ".json") with ⟨p, h⟩ | h
      · rcases load_json_cases fs p with ⟨t, h2⟩ | h2 | ⟨e, h2⟩ <;> simp [h, h2]
      · simp [h]

/-- Joining a candidate onto the empty directory entry gives the candidate
back. -/
theorem path_join_empty_dir (p : String) : path_join "" p = p := by
  unfold path_join
  split
  · rfl
  · rw [if_pos rfl]

/-- Splitting the empty search path yields one empty directory entry. -/
theorem split_paths_empty : split_paths "" = [""] := by decide

/-- On a successfully parsed document, `load_json` is the `try!` chain of
required-field extractions over it. -/
theorem load_json_parsed (fs : FsState) (path : String) (j : JValue)
    (h : fs.readFile path = .parsed j) :
    load_json fs path =
      (match req j "arch" with
      | .error e => .error e
      | .ok arch =>
        match req j "os" with
        | .error e => .error e
        | .ok os =>
          match req j "target-endian" with
          | .error e => .error e
          | .ok endian =>
            match req j "target-pointer-width" with
            | .error e => .error e
            | .ok pointer_width =>
              .ok { arch := arch,
                    vendor := ((j.find "vendor").bind JValue.as_str).getD "unknown",
                    os := os,
                    env := ((j.find "env").bind JValue.as_str).getD "",
                    endian := endian,
                    pointer_width := pointer_width }) := by
  unfold load_json
  rw [h]

/-! ## Further concrete fixtures -/

/-- A well-formed document with both optional fields present. -/
def docFull : JValue := .obj [("arch", .str "x86_64"), ("os", .str "nux"),
  ("vendor", .str "acme"), ("env", .str "gnu"),
  ("target-endian", .str "little"), ("target-pointer-width", .str "42")]

/-- A document missing the required `arch` field. -/
def docNoArch : JValue := .obj [("os", .str "nux"),
  ("target-endian", .str "little"), ("target-pointer-width", .str "42")]

/-- A document whose optional `vendor` field has a non-string value. -/
def docBadVendor : JValue := .obj [("arch", .str "x86_64"), ("os", .str "nux"),
  ("vendor", .num 3),
  ("target-endian", .str "little"), ("target-pointer-width", .str "42")]

/-- A document with an empty architecture, empty OS and an endianness outside
the two-value set — syntactically valid for the loader. -/
def docBad : JValue := .obj [("arch", .str ""), ("os", .str ""),
  ("target-endian", .str "middle"), ("target-pointer-width", .str "64")]

/-- A filesystem serving several fixture documents by name. -/
def fsDocs : FsState :=
  { is_file := fun _ => true,
    readFile := fun p =>
      if p == "full.json" then .parsed docFull
      else if p == "noarch.json" then .parsed docNoArch
      else if p == "badvendor.json" then .parsed docBadVendor
      else .parsed doc42 }

/-- A filesystem exercising the three failure modes of opening and parsing. -/
def fsErrs : FsState :=
  { is_file := fun _ => true,
    readFile := fun p =>
      if p == "open-fails" then .openErr { code := 5 }
      else if p == "parse-io" then .parseIoErr { code := 7 }
      else .parseOtherErr }

/-- A filesystem whose only regular file is `weird-target`, holding the
out-of-domain document `docBad`. -/
def fsBad : FsState :=
  { is_file := fun p => p == "weird-target", readFile := fun _ => .parsed docBad }

/-- A filesystem whose only regular file is `arr.json`, parsing to a JSON
array rather than an object. -/
def fsArr : FsState :=
  { is_file := fun p => p == "arr.json", readFile := fun _ => .parsed (.arr []) }

/-- Environment with `TARGET` set to a built-in triple. -/
def envT : EnvState :=
  { target := some (some "x86_64-apple-darwin"), rust_target_path := none }

/-- The built-in table row for `powerpc-unknown-linux-gnu`. -/
def tPpc : TargetInfo :=
  { arch := "powerpc", vendor := "unknown", os := "linux", env := "gnu",
    endian := "big", pointer_width := "32" }

/-! ## Claim theorems -/

/-- Claim C1: for every triple string in the built-in table, `from_str`
returns a `TargetInfo` whose six fields exactly equal that triple's table row,
for every environment and filesystem state (hence with no filesystem or
environment access). -/
theorem builtin_triples_resolve_exactly (env : EnvState) (fs : FsState)
    (s : String) (t : TargetInfo) (h : load_specific s = some t) :
    from_str env fs s = .ok t :=
  from_str_builtin env fs s t h

/-- Witness for C1: four representative triples resolve to their table rows
even on a filesystem where every path is a file parsing to a different
document. -/
theorem builtin_triples_resolve_exactly_witness :
    from_str envEmptyPath fsAll "x86_64-unknown-linux-gnu" =
      .ok { arch := "x86_64", vendor := "unknown", os := "linux", env := "gnu",
            endian := "little", pointer_width := "64" } ∧
    from_str envAB fsAll "i586-unknown-linux-gnu" =
      .ok { arch := "x86", vendor := "unknown", os := "linux", env := "gnu",
            endian := "little", pointer_width := "32" } ∧
    from_str envUnset fsAll "armv7s-apple-ios" =
      .ok { arch := "arm", vendor := "apple", os := "ios", env := "",
            endian := "little", pointer_width := "32" } ∧
    from_str envEmptyPath fsAll "le32-unknown-nacl" =
      .ok { arch := "le32", vendor := "unknown", os := "nacl", env := "newlib",
            endian := "little", pointer_width := "32" } :=
  ⟨builtin_triples_resolve_exactly _ _ _ _ (by decide),
   builtin_triples_resolve_exactly _ _ _ _ (by decide),
   builtin_triples_resolve_exactly _ _ _ _ (by decide),
   builtin_triples_resolve_exactly _ _ _ _ (by decide)⟩

/-- Claim C2: for an input matching no built-in triple, a direct regular file
is handed to the loader; otherwise the `.json` candidate is searched through
the listed directories in order, the first hit deciding the result, and
`TargetNotFound` is returned when no directory matches. -/
theorem non_builtin_resolution (env : EnvState) (fs : FsState) (s : String)
    (h : load_specific s = none) :
    (fs.is_file s = true → from_str env fs s = load_json fs s) ∧
    (fs.is_file s = false →
      (∀ d ∈ split_paths (env.rust_target_path.getD ""),
          fs.is_file (path_join d (s ++ ".json")) = false) →
      from_str env fs s = .error .TargetNotFound) ∧
    (fs.is_file s = false →
      ∀ pre d post, split_paths (env.rust_target_path.getD "") = pre ++ d :: post →
        (∀ d' ∈ pre, fs.is_file (path_join d' (s ++ ".json")) = false) →
        fs.is_file (path_join d (s ++ ".json")) = true →
        from_str env fs s = load_json fs (path_join d (s ++ ".json"))) := by
  refine ⟨?_, ?_, ?_⟩
  · intro hf
    rw [from_str_fallback env fs s h, if_pos hf]
  · intro hf hnone
    rw [from_str_fallback env fs s h, if_neg (by simp [hf])]
    exact search_dirs_not_found fs (s ++ ".json") _ hnone
  · intro hf pre d post hsplit hpre hd
    rw [from_str_fallback env fs s h, if_neg (by simp [hf]), hsplit]
    exact search_dirs_first_hit fs (s ++ ".json") pre d post hpre hd

/-- Witness for C2: with search path `/a:/b` and the file only under `/b`,
the bare name resolves to `/b`'s document; with no files anywhere it fails
with `TargetNotFound`; a direct file path delegates to the loader. -/
theorem non_builtin_resolution_witness :
    from_str envAB fsUnderB "mytarget" = load_json fsUnderB "/b/mytarget.json" ∧
    from_str envAB fsUnderB "mytarget" = .ok t42 ∧
    from_str envAB fsNone "mytarget" = .error .TargetNotFound ∧
    from_str envEmptyPath fsAll "direct-path" = load_json fsAll "direct-path" :=
  ⟨(non_builtin_resolution envAB fsUnderB "mytarget" (by decide)).2.2 rfl
      ["/a"] "/b" [] (by decide) (by decide) (by decide),
   by decide,
   (non_builtin_resolution envAB fsNone "mytarget" (by decide)).2.1 rfl (by decide),
   (non_builtin_resolution envEmptyPath fsAll "direct-path" (by decide)).1 rfl⟩

/-- Claim C4: an open or read failure yields an I/O error wrapping the cause;
a parse failure is reported as `InvalidSpec` unless the parser's own error is
an I/O fault, which is reported as an I/O error instead. -/
theorem loader_error_classification (fs : FsState) (path : String) :
    (∀ e, fs.readFile path = .openErr e → load_json fs path = .error (.Io e)) ∧
    (∀ e, fs.readFile path = .parseIoErr e → load_json fs path = .error (.Io e)) ∧
    (fs.readFile path = .parseOtherErr → load_json fs path = .error .InvalidSpec) := by
  refine ⟨fun e h => ?_, fun e h => ?_, fun h => ?_⟩ <;> unfold load_json <;> rw [h]

/-- Witness for C4: the three failure modes at three concrete paths. -/
theorem loader_error_classification_witness :
    load_json fsErrs "open-fails" = .error (.Io { code := 5 }) ∧
    load_json fsErrs "parse-io" = .error (.Io { code := 7 }) ∧
    load_json fsErrs "bad-syntax" = .error .InvalidSpec :=
  ⟨(loader_error_classification fsErrs "open-fails").1 { code := 5 } rfl,
   (loader_error_classification fsErrs "parse-io").2.1 { code := 7 } rfl,
   (loader_error_classification fsErrs "bad-syntax").2.2 rfl⟩

/-- Claim C3: on a parsed document, any of the four required fields missing or
non-string makes the loader fail with `InvalidSpec`; when all four are present
as strings the loader returns them verbatim, `vendor` defaulting to
`"unknown"` and `env` to `""` when absent or non-string. -/
theorem loader_field_extraction (fs : FsState) (path : String) (j : JValue)
    (h : fs.readFile path = .parsed j) :
    (((j.find "arch").bind JValue.as_str = none ∨
      (j.find "os").bind JValue.as_str = none ∨
      (j.find "target-endian").bind JValue.as_str = none ∨
      (j.find "target-pointer-width").bind JValue.as_str = none) →
      load_json fs path = .error .InvalidSpec) ∧
    (∀ a o e w, (j.find "arch").bind JValue.as_str = some a →
      (j.find "os").bind JValue.as_str = some o →
      (j.find "target-endian").bind JValue.as_str = some e →
      (j.find "target-pointer-width").bind JValue.as_str = some w →
      load_json fs path =
        .ok { arch := a,
              vendor := ((j.find "vendor").bind JValue.as_str).getD "unknown",
              os := o,
              env := ((j.find "env").bind JValue.as_str).getD "",
              endian := e, pointer_width := w }) := by
  constructor
  · intro hmiss
    rw [load_json_parsed fs path j h]
    split
    · rename_i e heq
      cases req_error_eq _ _ e heq
      rfl
    · split
      · rename_i e heq
        cases req_error_eq _ _ e heq
        rfl
      · split
        · rename_i e heq
          cases req_error_eq _ _ e heq
          rfl
        · split
          · rename_i e heq
            cases req_error_eq _ _ e heq
            rfl
          · rcases hmiss with hm | hm | hm | hm <;> simp_all [req_ok_iff]
  · intro a o e w ha ho he hw
    rw [load_json_parsed fs path j h,
        (req_ok_iff j "arch" a).mpr ha, (req_ok_iff j "os" o).mpr ho,
        (req_ok_iff j "target-endian" e).mpr he,
        (req_ok_iff j "target-pointer-width" w).mpr hw]

/-- Witness for C3: a document with both optional fields keeps them verbatim;
omitted or non-string optional fields default; a missing `arch` fails with
`InvalidSpec`. -/
theorem loader_field_extraction_witness :
    load_json fsDocs "full.json" =
      .ok { arch := "x86_64", vendor := "acme", os := "nux", env := "gnu",
            endian := "little", pointer_width := "42" } ∧
    load_json fsDocs "default.json" = .ok t42 ∧
    load_json fsDocs "noarch.json" = .error .InvalidSpec ∧
    load_json fsDocs "badvendor.json" =
      .ok { arch := "x86_64", vendor := "unknown", os := "nux", env := "",
            endian := "little", pointer_width := "42" } :=
  ⟨(loader_field_extraction fsDocs "full.json" docFull rfl).2
      "x86_64" "nux" "little" "42" rfl rfl rfl rfl,
   (loader_field_extraction fsDocs "default.json" doc42 rfl).2
      "x86_64" "nux" "little" "42" rfl rfl rfl rfl,
   (loader_field_extraction fsDocs "noarch.json" docNoArch rfl).1 (.inl rfl),
   (loader_field_extraction fsDocs "badvendor.json" docBadVendor rfl).2
      "x86_64" "nux" "little" "42" rfl rfl rfl rfl⟩

/-- Claim C5 counterexample: a successful resolution through a loaded document
can carry an empty architecture, an empty operating system and an endianness
outside the two-value set: the invariant claimed for every successful
resolution fails on the code. -/
theorem resolved_invariant_counterexample :
    from_str envUnset fsBad "weird-target" =
      .ok { arch := "", vendor := "unknown", os := "", env := "",
            endian := "middle", pointer_width := "64" } ∧
    ¬("middle" = "little" ∨ "middle" = "big") ∧
    ("" : String).length = 0 := by decide

/-- Claim C5 amended: every `TargetInfo` produced by a built-in table hit has
non-empty architecture and operating system and an endianness drawn from
{little, big}; document loading guarantees only the presence of all six
fields, with `vendor` and `env` defaulted. -/
theorem resolved_invariant_builtin (env : EnvState) (fs : FsState) (s : String)
    (t : TargetInfo) (h : load_specific s = some t) :
    from_str env fs s = .ok t ∧ t.arch ≠ "" ∧ t.os ≠ "" ∧
      (t.endian = "little" ∨ t.endian = "big") := by
  refine ⟨from_str_builtin env fs s t h, ?_⟩
  unfold load_specific at h
  split at h <;> first
    | (simp only [ti, Option.some.injEq] at h; subst h; decide)
    | simp at h

/-- Witness for C5's amended claim at `powerpc-unknown-linux-gnu`. -/
theorem resolved_invariant_builtin_witness :
    from_str envUnset fsAll "powerpc-unknown-linux-gnu" = .ok tPpc ∧
      tPpc.arch ≠ "" ∧ tPpc.os ≠ "" ∧
      (tPpc.endian = "little" ∨ tPpc.endian = "big") :=
  resolved_invariant_builtin envUnset fsAll "powerpc-unknown-linux-gnu" tPpc (by decide)

/-- Claim C6 counterexample: with the search-path variable empty (or unset),
splitting yields the single empty directory entry, so the candidate
`foo.json` is probed relative to the current directory; on a filesystem where
it exists, resolution succeeds instead of failing with `TargetNotFound`. -/
theorem empty_search_path_counterexample :
    from_str envEmptyPath fsFooJson "foo" = .ok t42 ∧
    from_str envUnset fsFooJson "foo" = .ok t42 ∧
    from_str envEmptyPath fsFooJson "foo" ≠ .error .TargetNotFound := by decide

/-- Claim C6 amended: with the search-path variable unset or empty, an input
matching no built-in triple and not itself a regular file resolves to
`TargetNotFound` exactly when the candidate `input ++ ".json"` (probed via the
single empty directory entry, i.e. relative to the current directory) is not a
regular file; when it is, the loader's result for it is returned. -/
theorem empty_search_path_amended (env : EnvState) (fs : FsState) (s : String)
    (henv : env.rust_target_path = none ∨ env.rust_target_path = some "")
    (hb : load_specific s = none) (hf : fs.is_file s = false) :
    (fs.is_file (s ++ ".json") = false → from_str env fs s = .error .TargetNotFound) ∧
    (fs.is_file (s ++ ".json") = true → from_str env fs s = load_json fs (s ++ ".json")) := by
  have hpath : env.rust_target_path.getD "" = "" := by
    rcases henv with h | h <;> rw [h] <;> rfl
  constructor
  · intro hc
    rw [from_str_fallback env fs s hb, if_neg (by simp [hf]), hpath, split_paths_empty]
    refine search_dirs_not_found fs (s ++ ".json") [""] ?_
    intro d hd
    rw [List.mem_singleton] at hd
    subst hd
    rwa [path_join_empty_dir]
  · intro hc
    rw [from_str_fallback env fs s hb, if_neg (by simp [hf]), hpath, split_paths_empty]
    have hfirst := search_dirs_first_hit fs (s ++ ".json") [] "" []
      (by intro d' hd'; cases hd') (by rwa [path_join_empty_dir])
    simpa [path_join_empty_dir] using hfirst

/-- Witness for C6's amended claim: `TargetNotFound` on an empty filesystem,
and delegation to the loader when `foo.json` exists in the current
directory. -/
theorem empty_search_path_amended_witness :
    from_str envEmptyPath fsNone "bar" = .error .TargetNotFound ∧
    from_str envUnset fsFooJson "foo" = load_json fsFooJson "foo.json" :=
  ⟨(empty_search_path_amended envEmptyPath fsNone "bar" (.inr rfl) (by decide) rfl).1 rfl,
   (empty_search_path_amended envUnset fsFooJson "foo" (.inl rfl) (by decide) rfl).2 rfl⟩

/-- Claim C7: `new` fails with `TargetUnset` exactly when the `TARGET`
variable is absent or not decodable as text; when it holds valid text, its
result equals `from_str` on that text. -/
theorem new_target_unset_iff (env : EnvState) (fs : FsState) :
    (new env fs = .error .TargetUnset ↔
      (env.target = none ∨ env.target = some none)) ∧
    (∀ s, env.target = some (some s) → new env fs = from_str env fs s) := by
  constructor
  · constructor
    · intro h
      rcases htgt : env.target with _ | ov
      · exact .inl rfl
      · rcases ov with _ | s
        · exact .inr rfl
        · unfold new at h
          rw [htgt] at h
          exact absurd h (from_str_ne_target_unset env fs s)
    · intro hcase
      unfold new
      rcases hcase with h | h <;> rw [h]
  · intro s hs
    unfold new
    rw [hs]

/-- Witness for C7: `TargetUnset` with both variables unset; with `TARGET`
holding a built-in triple, `new` equals `from_str` on it. -/
theorem new_target_unset_iff_witness :
    new envUnset fsAll = .error .TargetUnset ∧
    new envT fsAll = from_str envT fsAll "x86_64-apple-darwin" :=
  ⟨(new_target_unset_iff envUnset fsAll).1.mpr (.inl rfl),
   (new_target_unset_iff envT fsAll).2 "x86_64-apple-darwin" rfl⟩

/-- Claim C8: two resolutions of the same input under equal search-path
values and extensionally equal filesystem observations return equal results,
whatever the rest of the ambient state (for example the `TARGET` variable)
holds. -/
theorem resolve_deterministic (env1 env2 : EnvState) (fs1 fs2 : FsState)
    (s : String)
    (henv : env1.rust_target_path = env2.rust_target_path)
    (hfile : ∀ p, fs1.is_file p = fs2.is_file p)
    (hread : ∀ p, fs1.readFile p = fs2.readFile p) :
    from_str env1 fs1 s = from_str env2 fs2 s := by
  obtain ⟨f1, r1⟩ := fs1
  obtain ⟨f2, r2⟩ := fs2
  obtain ⟨t1, p1⟩ := env1
  obtain ⟨t2, p2⟩ := env2
  have hp : p1 = p2 := henv
  have hf : f1 = f2 := funext hfile
  have hr : r1 = r2 := funext hread
  subst hp hf hr
  rfl

/-- Witness for C8: two environments differing only in `TARGET` resolve a
bare name identically. -/
theorem resolve_deterministic_witness :
    from_str { target := some (some "ignored"), rust_target_path := some "/a:/b" }
        fsUnderB "mytarget" =
      from_str { target := none, rust_target_path := some "/a:/b" }
        fsUnderB "mytarget" :=
  resolve_deterministic _ _ _ _ "mytarget" rfl (fun _ => rfl) (fun _ => rfl)

/-- Claim C9: a document whose top-level value is not an object always makes
the loader fail with `InvalidSpec`, since every field lookup on a non-object
yields nothing. -/
theorem non_object_document_invalid (fs : FsState) (path : String) (v : JValue)
    (h : fs.readFile path = .parsed v) (hno : ∀ fields, v ≠ JValue.obj fields) :
    load_json fs path = .error .InvalidSpec := by
  have hfind : v.find "arch" = none := by
    cases v
    case obj fields => exact absurd rfl (hno fields)
    all_goals rfl
  rw [load_json_parsed fs path v h,
      (req_invalid_iff v "arch").mpr (by rw [hfind]; rfl)]

/-- Witness for C9: a top-level JSON array is rejected as `InvalidSpec`, both
through the loader directly and through full resolution. -/
theorem non_object_document_invalid_witness :
    load_json fsArr "arr.json" = .error .InvalidSpec ∧
    from_str envUnset fsArr "arr.json" = .error .InvalidSpec :=
  ⟨non_object_document_invalid fsArr "arr.json" (.arr []) rfl
      (fun _ hx => JValue.noConfusion hx),
   by decide⟩

/-- Claim C10: `from_str` is total: for every input string and every
environment and filesystem state it returns either a `TargetInfo` or one of
the four error kinds. -/
theorem resolve_total (env : EnvState) (fs : FsState) (s : String) :
    (∃ t, from_str env fs s = .ok t) ∨
      from_str env fs s = .error .TargetUnset ∨
      from_str env fs s = .error .TargetNotFound ∨
      from_str env fs s = .error .InvalidSpec ∨
      ∃ e, from_str env fs s = .error (.Io e) := by
  cases hres : from_str env fs s with
  | ok t => exact .inl ⟨t, rfl⟩
  | error e =>
    cases e with
    | TargetUnset => exact .inr (.inl rfl)
    | TargetNotFound => exact .inr (.inr (.inl rfl))
    | InvalidSpec => exact .inr (.inr (.inr (.inl rfl)))
    | Io e2 => exact .inr (.inr (.inr (.inr ⟨e2, rfl⟩)))

end TargetBuildUtils
